import Mathlib

/-!
Verification of the Gumiho chat-bot core against its specification.

The definitions below are a shallow embedding of the Python sources:
pure functions become Lean functions, Redis-backed state becomes explicit
state passing over a record of keyed values with absolute expiry times,
and external collaborators (the embedding model, the LLM providers, the
subword tokenizer) become explicit function parameters.  Floats that only
ever get compared are embedded as rationals.
-/

set_option linter.unusedVariables false
set_option maxRecDepth 100000

namespace Gumiho

/-! Python-style helpers shared by several embedded functions. -/

/-- Model of Python str.join: parts concatenated with the separator between
consecutive parts. -/
def pyJoin (sep : String) : List String → String
  | [] => ""
  | [x] => x
  | x :: y :: xs => x ++ sep ++ pyJoin sep (y :: xs)

/-- Insertion step of the stable sort modelling Python list.sort. -/
def pyInsort (le : α → α → Bool) (a : α) : List α → List α
  | [] => [a]
  | b :: bs => if le a b then a :: b :: bs else b :: pyInsort le a bs

/-- Stable sort modelling Python list.sort under a total boolean comparison:
elements comparing equal keep their original relative order. -/
def pySort (le : α → α → Bool) (l : List α) : List α := l.foldr (pyInsort le) []

/-- Model of the Python substring test, written on character lists. -/
def subStr (needle : List Char) : List Char → Bool
  | [] => needle.isEmpty
  | c :: t => needle.isPrefixOf (c :: t) || subStr needle t

/-- Model of Python string slicing text[:n]. -/
def pySlice (s : String) (n : Nat) : String := String.mk (s.data.take n)

/-! ## Router (src/core/router.py)

The semantic-router layer and the random generator are external
collaborators; they enter the embedding as explicit parameters.  The layer
parameter returns none when the layer call raises, and otherwise the pair
of the route name (none when no route cleared the threshold) and the
similarity score (none models a missing score). -/

inductive RouteType
  | IGNORE
  | CHITCHAT
  | LLM_REQUIRED
  | VISION
deriving DecidableEq

structure RouteResult where
  route : RouteType
  confidence : ℚ
  chitchat_response : Option String
deriving DecidableEq

def CHITCHAT_RESPONSES_greeting : List String :=
  ["yo", "hey", "sup", "halo", "yo wassup", "eh ada", "oi", "yoo"]

def CHITCHAT_RESPONSES_greeting_morning : List String :=
  ["pagi", "gm", "morning", "pagi juga", "yo pagi", "met pagi"]

def CHITCHAT_RESPONSES_greeting_night : List String :=
  ["night", "gn", "malam", "nite", "tidur sana", "met malam"]

def CHITCHAT_RESPONSES_how_are_you : List String :=
  ["chillin, you?", "biasa aja", "fine", "santai, lu?", "good good", "ya gitu deh"]

def CHITCHAT_RESPONSES_thanks : List String :=
  ["np", "no prob", "santai", "yoi", "sama sama", "anytime"]

def CHITCHAT_RESPONSES_bye : List String :=
  ["see ya", "bye", "dadah", "later", "sampai nanti", "peace"]

def CHITCHAT_RESPONSES_whats_up : List String :=
  ["nothing much", "biasa aja", "chillin", "gitu gitu aja", "santai", "lagi gabut"]

def GREETING_KEYWORDS : List String :=
  ["hi", "hello", "hey", "yo", "sup", "halo", "hai", "hei"]

def MORNING_KEYWORDS : List String := ["morning", "gm", "pagi"]

def NIGHT_KEYWORDS : List String := ["night", "gn", "malam"]

def HOW_ARE_YOU_KEYWORDS : List String :=
  ["how are you", "apa kabar", "gimana kabarnya"]

def THANKS_KEYWORDS : List String :=
  ["thanks", "thank", "thx", "ty", "makasih", "terima kasih", "mksh"]

def BYE_KEYWORDS : List String :=
  ["bye", "goodbye", "dadah", "see ya", "see you", "sampai"]

def WHATS_UP_KEYWORDS : List String :=
  ["whats up", "what's up", "wassup", "ngapain", "lagi ngapain"]

/-- Model of Python str.strip: drop whitespace from both ends. -/
def pyStrip (s : String) : String :=
  String.mk (((s.data.dropWhile Char.isWhitespace).reverse.dropWhile
    Char.isWhitespace).reverse)

/-- Model of Python str.lower: lowercase every character. -/
def pyLower (s : String) : String := String.mk (s.data.map Char.toLower)

/-- Accumulator pass behind pyWords. -/
def wordsAux (acc : List Char) : List Char → List String
  | [] => if acc = [] then [] else [String.mk acc.reverse]
  | c :: cs =>
    if c.isWhitespace then
      if acc = [] then wordsAux [] cs else String.mk acc.reverse :: wordsAux [] cs
    else wordsAux (c :: acc) cs

/-- Model of Python content.split(): split on whitespace runs, dropping
empty pieces. -/
def pyWords (s : String) : List String := wordsAux [] s.data

/-- Nonempty intersection test between the word set and a keyword set. -/
def wordsHit (ws : List String) (ks : List String) : Bool :=
  ws.any (fun w => ks.contains w)

/-- Model of router phrase match: any phrase occurring as a substring. -/
def phrase_match (content : String) (phrases : List String) : Bool :=
  phrases.any (fun p => subStr p.data content.data)

/-- Response-pool selection mirroring the if-chain of pick_chitchat_response
in src/core/router.py. -/
def pickPool (content : String) : List String :=
  let words := pyWords content
  if wordsHit words MORNING_KEYWORDS then CHITCHAT_RESPONSES_greeting_morning
  else if wordsHit words NIGHT_KEYWORDS then CHITCHAT_RESPONSES_greeting_night
  else if wordsHit words THANKS_KEYWORDS then CHITCHAT_RESPONSES_thanks
  else if wordsHit words BYE_KEYWORDS then CHITCHAT_RESPONSES_bye
  else if wordsHit words WHATS_UP_KEYWORDS || phrase_match content WHATS_UP_KEYWORDS then
    CHITCHAT_RESPONSES_whats_up
  else if phrase_match content HOW_ARE_YOU_KEYWORDS then CHITCHAT_RESPONSES_how_are_you
  else if wordsHit words GREETING_KEYWORDS then CHITCHAT_RESPONSES_greeting
  else CHITCHAT_RESPONSES_greeting

/-- Canned-reply picker: random.choice is modelled by an arbitrary draw index
reduced modulo the pool size. -/
def pick_chitchat_response (content : String) (ri : Nat) : String :=
  let pool := pickPool content
  pool.getD (ri % pool.length) ""

/-- The route layer as seen by classify: none models a raised exception,
otherwise the optional best-route name and optional similarity score. -/
def RouteLayer := String → Option (Option RouteType × Option ℚ)

/-- Embedding of LocalRouter.classify, instrumented with a boolean recording
whether the route layer was invoked.  The ready flag models
self ready and the layer being present. -/
def classifyT (ready : Bool) (layer : RouteLayer) (ri : Nat)
    (content : String) (has_image : Bool) : RouteResult × Bool :=
  if has_image then
    (⟨RouteType.VISION, 1, none⟩, false)
  else if !ready then
    (⟨RouteType.LLM_REQUIRED, 0, none⟩, false)
  else
    let cleaned := pyLower (pyStrip content)
    if cleaned = "" ∨ cleaned.length > 500 then
      (⟨if cleaned = "" then RouteType.IGNORE else RouteType.LLM_REQUIRED, 1, none⟩, false)
    else
      match layer cleaned with
      | none => (⟨RouteType.LLM_REQUIRED, 0, none⟩, true)
      | some (name?, score?) =>
        match name? with
        | none => (⟨RouteType.LLM_REQUIRED, 0, none⟩, true)
        | some route_type =>
          let chitchat_response :=
            if route_type = RouteType.CHITCHAT then
              some (pick_chitchat_response cleaned ri)
            else none
          (⟨route_type, score?.getD 0, chitchat_response⟩, true)

/-- Embedding of LocalRouter.classify (result only). -/
def classify (ready : Bool) (layer : RouteLayer) (ri : Nat)
    (content : String) (has_image : Bool) : RouteResult :=
  (classifyT ready layer ri content has_image).1

/-! ## Memory store (src/database/memory_store.py)

The conversation-log rows reaching the Python layer of semantic_search
carry the similarity value computed by the SQL SELECT; that floating-point
SQL arithmetic is abstracted into an optional rational field on the row
(none models SQL NULL, as produced by the NULLIF guard or a NULL
embedding).  The message id column exists on the table but is not part of
the SELECT list, which is exactly what claims C4 and C5 hinge on. -/

structure LogRow where
  message_id : String
  user_id : String
  content : String
  is_bot : Bool
  created_at : ℚ
  similarity : Option ℚ
deriving DecidableEq

/-- The dict literal built for each returned row in semantic_search: the
keys are exactly user_id, content, is_bot, created_at and similarity. -/
structure SemResult where
  user_id : String
  content : String
  is_bot : Bool
  created_at : ℚ
  similarity : ℚ
deriving DecidableEq

/-- Comparison realising ORDER BY similarity DESC NULLS LAST. -/
def simDescNullsLast (a b : LogRow) : Bool :=
  match a.similarity, b.similarity with
  | some x, some y => y ≤ x
  | some _, none => true
  | none, some _ => false
  | none, none => true

/-- The similarity threshold 0.3 of semantic_search, written as the
normalized rational three tenths so that concrete instances evaluate by
kernel reduction. -/
def simThreshold : ℚ := ⟨3, 10, by decide, by decide⟩

/-- The Python truthiness-and-threshold filter of semantic_search:
row similarity must be non-null, nonzero and greater than 0.3. -/
def rowPasses (r : LogRow) : Bool :=
  match r.similarity with
  | some s => decide (¬ s = 0) && decide (simThreshold < s)
  | none => false

/-- The dict built per surviving row (similarity or 0.0 collapses to the
stored value because the filter already required it truthy). -/
def toSemResult (r : LogRow) : SemResult :=
  ⟨r.user_id, r.content, r.is_bot, r.created_at, r.similarity.getD 0⟩

/-- Embedding of memory_store.semantic_search: the SQL sorts candidates by
similarity descending with NULLs last and applies LIMIT, then the Python
comprehension filters on truthy similarity greater than 0.3 and projects
the five-key dict. -/
def semantic_search (rows : List LogRow) (lim : Nat) : List SemResult :=
  let sorted := pySort simDescNullsLast rows
  let limited := sorted.take lim
  (limited.filter rowPasses).map toSemResult

/-! ## Context manager (src/core/context_manager.py) -/

structure MessageFragment where
  msg_id : String
  author : String
  author_id : String
  content : String
  is_bot : Bool
  timestamp : ℚ
deriving DecidableEq

/-- Values stored in the semantic-result dict, for modelling dict.get. -/
inductive PyVal
  | pstr (s : String)
  | pbool (b : Bool)
  | prat (q : ℚ)
deriving DecidableEq

/-- Model of dict.get on a semantic result: exactly the five keys written
by semantic_search are present; every other key yields none. -/
def semGet (r : SemResult) : String → Option PyVal
  | "user_id" => some (PyVal.pstr r.user_id)
  | "content" => some (PyVal.pstr r.content)
  | "is_bot" => some (PyVal.pbool r.is_bot)
  | "created_at" => some (PyVal.prat r.created_at)
  | "similarity" => some (PyVal.prat r.similarity)
  | _ => none

def pyvalTruthy : PyVal → Bool
  | PyVal.pstr s => s ≠ ""
  | PyVal.pbool b => b
  | PyVal.prat q => q ≠ 0

/-- Model of the Python or on optional dict values: the left value wins
when truthy, otherwise the right operand is returned. -/
def pyOrVal (a b : Option PyVal) : Option PyVal :=
  match a with
  | some v => if pyvalTruthy v then some v else b
  | none => b

/-- Model of Python str applied to an optional value; str of None is the
literal string None. -/
def pyStr : Option PyVal → String
  | none => "None"
  | some (PyVal.pstr s) => s
  | some (PyVal.pbool b) => if b then "True" else "False"
  | some (PyVal.prat q) => toString q

/-- The deduplication key computed in ContextManager.build:
str of get message_id or get id.  Neither key exists on the dicts
returned by semantic_search. -/
def resId (res : SemResult) : String :=
  pyStr (pyOrVal (semGet res "message_id") (semGet res "id"))

/-- The sort key of ContextManager.build: get timestamp with default 0.
The key timestamp is absent from the semantic-result dicts. -/
def semSortKey (res : SemResult) : ℚ :=
  match semGet res "timestamp" with
  | some (PyVal.prat q) => q
  | some _ => 0
  | none => 0

/-- Embedding of the semantic-result processing in ContextManager.build:
collect the seen ids from channel history, reply chain and the triggering
message, keep raw results whose dedup key is unseen, then stable-sort by
the timestamp key. -/
def build_semantic (reply_chain channel_history : List MessageFragment)
    (message_id : String) (raw : List SemResult) : List SemResult :=
  let seen : List String :=
    channel_history.map (fun m => m.msg_id)
      ++ reply_chain.map (fun m => m.msg_id) ++ [message_id]
  let unique := raw.filter (fun res => !(seen.contains (resId res)))
  pySort (fun a b => semSortKey a ≤ semSortKey b) unique

/-! Token counting and rendering.  The tiktoken tokenizer is an external
collaborator; it enters as an explicit encode/decode pair. -/

structure Tokenizer where
  encode : String → List Nat
  decode : List Nat → String

def count_tokens (tok : Tokenizer) (text : String) : Nat :=
  (tok.encode text).length

/-- Embedding of ContextManager trim_to_tokens. -/
def trim_to_tokens (tok : Tokenizer) (text : String) (max_tokens : Nat) : String :=
  let tokens := tok.encode text
  if tokens.length ≤ max_tokens then text
  else tok.decode (tokens.take max_tokens)

/-- The context fields consumed by ContextManager.format. -/
structure AssembledContext where
  reply_chain : List MessageFragment
  semantic_results : List SemResult
  channel_history : List MessageFragment
  memories : List String

def fmtMemories (ms : List String) : String :=
  pyJoin "\n" (ms.map (fun m => "- " ++ pySlice m 100))

def semRole (r : SemResult) : String :=
  if r.is_bot then "Bot" else "user_" ++ pySlice r.user_id 6

def fmtSemantic (rs : List SemResult) : String :=
  pyJoin "\n" (rs.map (fun r => semRole r ++ ": " ++ pySlice r.content 150))

def fragRole (m : MessageFragment) : String :=
  if m.is_bot then "Bot" else m.author

def fmtChain (chain : List MessageFragment) : String :=
  pyJoin "\n" (chain.reverse.map (fun m => fragRole m ++ ": " ++ pySlice m.content 200))

/-- Channel history keeps only the last ten fragments, as history[-10:]. -/
def fmtHistory (h : List MessageFragment) : String :=
  let recent := h.drop (h.length - 10)
  pyJoin "\n" (recent.map (fun m => fragRole m ++ ": " ++ pySlice m.content 150))

/-- The sections list built by ContextManager.format, in source order,
as label, content and priority triples (lower priority trims first). -/
def buildSections (ctx : AssembledContext) (authorDisplay msgContent : String) :
    List (String × String × Nat) :=
  (if ctx.memories ≠ [] then [("[MEMORIES]", fmtMemories ctx.memories, 2)] else [])
    ++ (if ctx.semantic_results ≠ [] then
          [("[SEMANTIC RECALL]", fmtSemantic ctx.semantic_results, 3)] else [])
    ++ (if ctx.reply_chain ≠ [] then
          [("[REPLY CONTEXT]", fmtChain ctx.reply_chain, 5)] else [])
    ++ (if ctx.channel_history ≠ [] then
          [("[RECENT CHAT]", fmtHistory ctx.channel_history, 1)] else [])
    ++ [("[CURRENT]", authorDisplay ++ ": " ++ msgContent, 5)]

/-- One iteration of the token-budget enforcement loop of
ContextManager.format, acting on the parts-so-far and used-token pair. -/
def budgetStep (tok : Tokenizer) (token_budget : Nat)
    (acc : List String × Nat) (sec : String × String × Nat) : List String × Nat :=
  if acc.2 + count_tokens tok (sec.1 ++ "\n" ++ sec.2.1) > token_budget ∧ sec.2.2 < 5 then
    if token_budget - acc.2 > 50 then
      (acc.1 ++ [trim_to_tokens tok (sec.1 ++ "\n" ++ sec.2.1) (token_budget - acc.2)],
        acc.2 + count_tokens tok (trim_to_tokens tok (sec.1 ++ "\n" ++ sec.2.1) (token_budget - acc.2)))
    else acc
  else (acc.1 ++ [sec.1 ++ "\n" ++ sec.2.1],
    acc.2 + count_tokens tok (sec.1 ++ "\n" ++ sec.2.1))

/-- The surviving parts of ContextManager.format: sections stable-sorted by
priority descending, then folded through the budget loop. -/
def formatParts (tok : Tokenizer) (ctx : AssembledContext)
    (authorDisplay msgContent : String) (token_budget : Nat) : List String :=
  let sections := buildSections ctx authorDisplay msgContent
  let sortedSections := pySort (fun a b => b.2.2 ≤ a.2.2) sections
  (sortedSections.foldl (budgetStep tok token_budget) ([], 0)).1

/-- Embedding of ContextManager.format. -/
def format (tok : Tokenizer) (ctx : AssembledContext)
    (authorDisplay msgContent : String) (token_budget : Nat) : String :=
  pyJoin "\n\n" (formatParts tok ctx authorDisplay msgContent token_budget)

/-- Occurrence of one string inside another, used to state that a rendered
section is present in full in the output. -/
def occursIn (needle hay : String) : Prop :=
  ∃ pre post, hay = pre ++ needle ++ post

/-- A concrete character-level tokenizer used to instantiate witness
statements (the production tokenizer is an external collaborator). -/
def charTok : Tokenizer :=
  ⟨fun s => s.data.map Char.toNat, fun l => String.mk (l.map Char.ofNat)⟩

/-! ## Circuit breaker (src/services/redis_client.py and
src/core/llm_gateway.py)

Redis keys are modelled per provider as optional value-and-absolute-expiry
pairs over discrete time: a key set at time t with ttl w is readable at
every t0 with t0 < t + w and gone afterwards.  The broad exception
handlers around every Redis call model the non-failing store (the claims
concern breaker logic, not store outages). -/

structure ProviderCircuit where
  state : Option (String × Nat)
  failures : Option (Nat × Nat)
deriving DecidableEq

/-- Embedding of redis_client.get_circuit_state: the stored value when the
key is live, with Python or collapsing a falsy value to closed; a missing
or expired key reads closed. -/
def get_circuit_state (t : Nat) (s : ProviderCircuit) : String :=
  match s.state with
  | some (v, exp) => if t < exp then (if v ≠ "" then v else "closed") else "closed"
  | none => "closed"

/-- Embedding of redis_client.set_circuit_state (SETEX with the given ttl;
the source default is 60 seconds). -/
def set_circuit_state (t : Nat) (s : ProviderCircuit) (st : String)
    (ttl_seconds : Nat := 60) : ProviderCircuit :=
  { s with state := some (st, t + ttl_seconds) }

/-- Embedding of redis_client.increment_circuit_failures: INCR treats a
missing or expired key as zero, and only a count of exactly one attaches
the 120-second expiry to the key. -/
def increment_circuit_failures (t : Nat) (s : ProviderCircuit) :
    Nat × ProviderCircuit :=
  match s.failures with
  | some (n, exp) =>
    if t < exp then
      let count := n + 1
      if count = 1 then (count, { s with failures := some (count, t + 120) })
      else (count, { s with failures := some (count, exp) })
    else (1, { s with failures := some (1, t + 120) })
  | none => (1, { s with failures := some (1, t + 120) })

/-- Embedding of redis_client.reset_circuit_failures (DEL). -/
def reset_circuit_failures (s : ProviderCircuit) : ProviderCircuit :=
  { s with failures := none }

/-- Embedding of LLMGateway is-circuit-open: the state reads open. -/
def is_circuit_open (t : Nat) (s : ProviderCircuit) : Bool :=
  get_circuit_state t s = "open"

/-- Embedding of LLMGateway record-failure: increment the failure counter
and, at or past the fail-max threshold, set the state open with a ttl of
the reset timeout. -/
def record_failure (fail_max reset_timeout : Nat) (t : Nat)
    (s : ProviderCircuit) : ProviderCircuit :=
  let r := increment_circuit_failures t s
  if r.1 ≥ fail_max then set_circuit_state t r.2 "open" reset_timeout else r.2

/-- Embedding of LLMGateway record-success: clear the failure counter and,
when the current state does not read closed, write closed (default ttl). -/
def record_success (t : Nat) (s : ProviderCircuit) : ProviderCircuit :=
  let s1 := reset_circuit_failures s
  if get_circuit_state t s1 ≠ "closed" then set_circuit_state t s1 "closed" else s1

/-- Folding a sequence of recorded failures over a provider circuit. -/
def runFailures (fail_max reset_timeout : Nat) (s : ProviderCircuit)
    (ts : List Nat) : ProviderCircuit :=
  ts.foldl (fun s t => record_failure fail_max reset_timeout t s) s

/-- Last element of a nonempty time list (zero for the empty list). -/
def lastTime : List Nat → Nat
  | [] => 0
  | [t] => t
  | _ :: t :: ts => lastTime (t :: ts)

/-! The gateway structured-output path (LLMGateway.generate_chat).  The
instructor calls are external collaborators entering as optional results:
none models a timeout or any raised request error, which the source
swallows inside its own try block, so the embedded function is total. -/

structure ChatResponse where
  should_respond : Bool
  response_text : String
  mood : String
deriving DecidableEq

structure GatewayState where
  groq : ProviderCircuit
  openrouter : ProviderCircuit
deriving DecidableEq

/-- The safe default returned when every provider is skipped or fails. -/
def chatDefault : ChatResponse := ⟨false, "", "neutral"⟩

/-- The OpenRouter leg of generate_chat, also recording which providers
were attempted with an outbound request. -/
def try_openrouter_stage (fail_max reset_timeout t : Nat)
    (orRes : Option ChatResponse) (st : GatewayState) (attempted : List String) :
    ChatResponse × GatewayState × List String :=
  if !(is_circuit_open t st.openrouter) then
    match orRes with
    | some r =>
      (r, { st with openrouter := record_success t st.openrouter },
        attempted ++ ["openrouter"])
    | none =>
      (chatDefault,
        { st with openrouter := record_failure fail_max reset_timeout t st.openrouter },
        attempted ++ ["openrouter"])
  else (chatDefault, st, attempted)

/-- Embedding of LLMGateway.generate_chat: ordered failover Groq then
OpenRouter, each leg gated by its breaker; the third component lists the
providers to which an outbound request was issued. -/
def generate_chat (fail_max reset_timeout t : Nat) (st : GatewayState)
    (groqRes orRes : Option ChatResponse) :
    ChatResponse × GatewayState × List String :=
  if !(is_circuit_open t st.groq) then
    match groqRes with
    | some r => (r, { st with groq := record_success t st.groq }, ["groq"])
    | none =>
      let st1 := { st with groq := record_failure fail_max reset_timeout t st.groq }
      try_openrouter_stage fail_max reset_timeout t orRes st1 ["groq"]
  else try_openrouter_stage fail_max reset_timeout t orRes st []

/-! ## Persona store (src/database/persona_store.py)

The relational stores enter as lookup functions from ids to optional rows.
The Redis persona cache layer only replays values previously computed from
these stores; the embedding models the cold-cache read path. -/

structure UserPersonaRow where
  preset : Option String
  quirk_intensity : Option String
  style_sample : Option String
deriving DecidableEq

structure ServerPersonaRow where
  preset : String
  quirk_intensity : String
deriving DecidableEq

structure EffectivePersona where
  source : String
  preset : String
  quirk_intensity : String
  style_sample : Option String
deriving DecidableEq

/-- Python truthiness on an optional string: None and the empty string are
falsy. -/
def pyTruthyStr : Option String → Bool
  | none => false
  | some s => s ≠ ""

/-- Python a or b on an optional string against a string default. -/
def pyOrStr (a : Option String) (b : String) : String :=
  match a with
  | some s => if s ≠ "" then s else b
  | none => b

/-- Embedding of persona_store.get_server_persona: the stored row, or the
documented twomoon-heavy fallback when no server row exists. -/
def get_server_persona (sdb : String → Option ServerPersonaRow)
    (server_id : String) : ServerPersonaRow :=
  match sdb server_id with
  | some row => row
  | none => ⟨"twomoon", "heavy"⟩

/-- Embedding of persona_store.get_user_persona: the stored row when one
exists. -/
def get_user_persona (udb : String → Option UserPersonaRow)
    (user_id : String) : Option UserPersonaRow :=
  udb user_id

/-- Embedding of persona_store.get_effective_persona: a user row with a
truthy preset wins, pulling quirk intensity from the user row or the
server profile; otherwise the server profile applies. -/
def get_effective_persona (udb : String → Option UserPersonaRow)
    (sdb : String → Option ServerPersonaRow)
    (user_id server_id : String) : EffectivePersona :=
  let user_p := get_user_persona udb user_id
  let server_p := get_server_persona sdb server_id
  match user_p with
  | some up =>
    if pyTruthyStr up.preset then
      { source := "user"
        preset := up.preset.getD ""
        quirk_intensity := pyOrStr up.quirk_intensity server_p.quirk_intensity
        style_sample := up.style_sample }
    else
      { source := "server"
        preset := server_p.preset
        quirk_intensity := server_p.quirk_intensity
        style_sample := none }
  | none =>
    { source := "server"
      preset := server_p.preset
      quirk_intensity := server_p.quirk_intensity
      style_sample := none }

/-! ## Helper lemmas -/

theorem simThreshold_eq_three_tenths : simThreshold = 3 / 10 := by
  rw [simThreshold, Rat.mk'_eq_divInt, Rat.divInt_eq_div]
  norm_num

theorem mem_pyInsort {α} (le : α → α → Bool) (x : α) (l : List α) (a : α) :
    a ∈ pyInsort le x l ↔ a = x ∨ a ∈ l := by
  induction l with
  | nil => simp [pyInsort]
  | cons b bs ih =>
    unfold pyInsort
    split
    · simp
    · simp only [List.mem_cons, ih]
      tauto

theorem mem_pySort {α} (le : α → α → Bool) (l : List α) (a : α) :
    a ∈ pySort le l ↔ a ∈ l := by
  induction l with
  | nil => simp [pySort]
  | cons x xs ih =>
    have hstep : pySort le (x :: xs) = pyInsort le x (pySort le xs) := rfl
    rw [hstep, mem_pyInsort]
    simp [ih]

theorem occursIn_pyJoin (sep : String) (parts : List String) (p : String)
    (h : p ∈ parts) : occursIn p (pyJoin sep parts) := by
  induction parts with
  | nil => cases h
  | cons x xs ih =>
    rcases List.mem_cons.mp h with h1 | h2
    · subst h1
      cases xs with
      | nil => exact ⟨"", "", by simp [pyJoin]⟩
      | cons y ys =>
        refine ⟨"", sep ++ pyJoin sep (y :: ys), ?_⟩
        show pyJoin sep (p :: y :: ys) = "" ++ p ++ (sep ++ pyJoin sep (y :: ys))
        show p ++ sep ++ pyJoin sep (y :: ys) = "" ++ p ++ (sep ++ pyJoin sep (y :: ys))
        simp [String.append_assoc]
    · cases xs with
      | nil => cases h2
      | cons y ys =>
        obtain ⟨a, b, hab⟩ := ih h2
        refine ⟨x ++ sep ++ a, b, ?_⟩
        show x ++ sep ++ pyJoin sep (y :: ys) = x ++ sep ++ a ++ p ++ b
        rw [hab]
        simp [String.append_assoc]

theorem budgetStep_parts_mono (tok : Tokenizer) (budget : Nat)
    (acc : List String × Nat) (sec : String × String × Nat) (x : String)
    (h : x ∈ acc.1) : x ∈ (budgetStep tok budget acc sec).1 := by
  unfold budgetStep
  split
  · split
    · exact List.mem_append_left _ h
    · exact h
  · exact List.mem_append_left _ h

theorem budgetFold_parts_mono (tok : Tokenizer) (budget : Nat)
    (secs : List (String × String × Nat)) (acc : List String × Nat) (x : String)
    (h : x ∈ acc.1) : x ∈ (secs.foldl (budgetStep tok budget) acc).1 := by
  induction secs generalizing acc with
  | nil => exact h
  | cons s ss ih => exact ih _ (budgetStep_parts_mono tok budget acc s x h)

theorem budgetFold_mem_of_never_trim (tok : Tokenizer) (budget : Nat)
    (secs : List (String × String × Nat)) (acc : List String × Nat)
    (l c : String) (p : Nat) (hmem : (l, c, p) ∈ secs) (hp : ¬ p < 5) :
    (l ++ "\n" ++ c) ∈ (secs.foldl (budgetStep tok budget) acc).1 := by
  induction secs generalizing acc with
  | nil => cases hmem
  | cons s ss ih =>
    rcases List.mem_cons.mp hmem with h1 | h2
    · subst h1
      rw [List.foldl_cons]
      apply budgetFold_parts_mono
      show (l ++ "\n" ++ c) ∈ (budgetStep tok budget acc (l, c, p)).1
      unfold budgetStep
      rw [if_neg (fun hand => hp hand.2)]
      exact List.mem_append_right _ (List.mem_singleton.mpr rfl)
    · rw [List.foldl_cons]
      exact ih _ h2

theorem pickPool_ne_nil (content : String) : pickPool content ≠ [] := by
  simp only [pickPool]
  split_ifs <;> decide

/-! ## Claims about the router -/

/-- C7: classify called with has_image true returns the vision route with
confidence 1.0 and no canned reply, for every text content, every
readiness state, every route layer and every random draw. -/
theorem C7_vision_override (ready : Bool) (layer : RouteLayer) (ri : Nat)
    (content : String) :
    classify ready layer ri content true =
      ⟨RouteType.VISION, 1, none⟩ := rfl

/-- C8 counterexample: a 503-character input that strips to the two
characters hi is routed through the similarity layer (the invoked flag is
true) and can come back chitchat, so the claim as stated over raw input
length is false: the ceiling is applied to the normalized text. -/
theorem C8_counterexample :
    ("hi" ++ String.mk (List.replicate 501 ' ')).length > 500
    ∧ (classifyT true (fun _ => some (some RouteType.CHITCHAT, some ((9 : ℚ) / 10))) 0
        ("hi" ++ String.mk (List.replicate 501 ' ')) false).1.route ≠ RouteType.LLM_REQUIRED
    ∧ (classifyT true (fun _ => some (some RouteType.CHITCHAT, some ((9 : ℚ) / 10))) 0
        ("hi" ++ String.mk (List.replicate 501 ' ')) false).2 = true := by
  refine ⟨by decide, ?_, ?_⟩ <;> decide

/-- C8 amended: for every input whose normalized text (stripped and
lowercased) is longer than 500 characters, with no image and the
classifier ready, classify returns llm-required with confidence 1.0 and
never invokes the route layer. -/
theorem C8_length_ceiling (layer : RouteLayer) (ri : Nat) (content : String)
    (h : (pyLower (pyStrip content)).length > 500) :
    classifyT true layer ri content false =
      (⟨RouteType.LLM_REQUIRED, 1, none⟩, false) := by
  have hne : ¬ pyLower (pyStrip content) = "" := by
    intro he
    rw [he] at h
    simp at h
  unfold classifyT
  simp [hne, h]

theorem C8_length_ceiling_witness :
    (pyLower (pyStrip (String.mk (List.replicate 501 'a')))).length > 500
    ∧ classifyT true (fun _ => some (some RouteType.CHITCHAT, some ((9 : ℚ) / 10))) 0
        (String.mk (List.replicate 501 'a')) false =
      (⟨RouteType.LLM_REQUIRED, 1, none⟩, false) :=
  ⟨by decide,
    C8_length_ceiling (fun _ => some (some RouteType.CHITCHAT, some ((9 : ℚ) / 10))) 0
      (String.mk (List.replicate 501 'a')) (by decide)⟩

/-- C9: the route result carries a canned reply exactly when the route is
chitchat; the picker always draws an element of the selected pool, and
when no keyword set matches it falls back to the generic greeting pool. -/
theorem C9_chitchat_reply_iff :
    (∀ (ready : Bool) (layer : RouteLayer) (ri : Nat) (content : String) (hi : Bool),
      ((classify ready layer ri content hi).route = RouteType.CHITCHAT ↔
        ((classify ready layer ri content hi).chitchat_response).isSome = true))
    ∧ (∀ (content : String) (ri : Nat),
        pick_chitchat_response content ri ∈ pickPool content)
    ∧ (∀ content : String,
        wordsHit (pyWords content) MORNING_KEYWORDS = false →
        wordsHit (pyWords content) NIGHT_KEYWORDS = false →
        wordsHit (pyWords content) THANKS_KEYWORDS = false →
        wordsHit (pyWords content) BYE_KEYWORDS = false →
        wordsHit (pyWords content) WHATS_UP_KEYWORDS = false →
        phrase_match content WHATS_UP_KEYWORDS = false →
        phrase_match content HOW_ARE_YOU_KEYWORDS = false →
        wordsHit (pyWords content) GREETING_KEYWORDS = false →
        pickPool content = CHITCHAT_RESPONSES_greeting) := by
  refine ⟨?_, ?_, ?_⟩
  · intro ready layer ri content hi
    cases hi with
    | true => simp [classify, classifyT]
    | false =>
      cases ready with
      | false => simp [classify, classifyT]
      | true =>
        unfold classify classifyT
        simp only [Bool.not_true, Bool.false_eq_true, if_false, if_true]
        split
        · split <;> simp
        · cases hres : layer (pyLower (pyStrip content)) with
          | none => simp
          | some pr =>
            obtain ⟨name?, score?⟩ := pr
            cases name? with
            | none => simp
            | some rt =>
              by_cases hrt : rt = RouteType.CHITCHAT <;> simp [hrt]
  · intro content ri
    have hne : pickPool content ≠ [] := pickPool_ne_nil content
    have hlen : 0 < (pickPool content).length := List.length_pos.mpr hne
    have hm : ri % (pickPool content).length < (pickPool content).length :=
      Nat.mod_lt _ hlen
    unfold pick_chitchat_response
    rw [List.getD_eq_getElem _ _ hm]
    exact List.getElem_mem hm
  · intro content h1 h2 h3 h4 h5 h6 h7 h8
    unfold pickPool
    simp [h1, h2, h3, h4, h5, h6, h7, h8]

theorem C9_chitchat_reply_iff_witness :
    ((classify true (fun _ => some (some RouteType.CHITCHAT, some ((9 : ℚ) / 10))) 0
        "hello" false).route = RouteType.CHITCHAT ↔
      ((classify true (fun _ => some (some RouteType.CHITCHAT, some ((9 : ℚ) / 10))) 0
        "hello" false).chitchat_response).isSome = true)
    ∧ pick_chitchat_response "zzz" 0 ∈ pickPool "zzz"
    ∧ pickPool "zzz" = CHITCHAT_RESPONSES_greeting :=
  ⟨C9_chitchat_reply_iff.1 true (fun _ => some (some RouteType.CHITCHAT, some ((9 : ℚ) / 10)))
      0 "hello" false,
    C9_chitchat_reply_iff.2.1 "zzz" 0,
    C9_chitchat_reply_iff.2.2 "zzz" (by decide) (by decide) (by decide) (by decide)
      (by decide) (by decide) (by decide) (by decide)⟩

/-! ## Circuit-breaker run lemmas -/

theorem cb_step_live (fail_max reset_timeout t : Nat) (s : ProviderCircuit)
    (k e : Nat) (hf : s.failures = some (k, e)) (hk : 1 ≤ k) (ht : t < e)
    (hmax : k + 1 < fail_max) :
    record_failure fail_max reset_timeout t s =
      { s with failures := some (k + 1, e) } := by
  unfold record_failure increment_circuit_failures
  rw [hf]
  simp only [if_pos ht]
  have hk1 : ¬ k + 1 = 1 := by omega
  rw [if_neg hk1]
  have hge : ¬ k + 1 ≥ fail_max := by omega
  simp only [ge_iff_le, hge, if_false]

theorem cb_run (fail_max reset_timeout : Nat) (l : List Nat) :
    ∀ (s : ProviderCircuit) (k e : Nat),
      s.failures = some (k, e) → 1 ≤ k → (∀ t ∈ l, t < e) →
      k + l.length < fail_max →
      runFailures fail_max reset_timeout s l =
        { s with failures := some (k + l.length, e) } := by
  induction l with
  | nil =>
    intro s k e hf hk hlt hmax
    show s = { s with failures := some (k + 0, e) }
    cases s with
    | mk st f => simp_all
  | cons t ts ih =>
    intro s k e hf hk hlt hmax
    have hstep : record_failure fail_max reset_timeout t s =
        { s with failures := some (k + 1, e) } := by
      apply cb_step_live fail_max reset_timeout t s k e hf hk
        (hlt t (List.mem_cons_self t ts))
      simp only [List.length_cons] at hmax
      omega
    show runFailures fail_max reset_timeout
      (record_failure fail_max reset_timeout t s) ts = _
    rw [hstep]
    rw [ih { s with failures := some (k + 1, e) } (k + 1) e rfl (by omega)
      (fun t2 ht2 => hlt t2 (List.mem_cons_of_mem t ht2))
      (by simp only [List.length_cons] at hmax; omega)]
    simp only [List.length_cons]
    have : k + 1 + ts.length = k + (ts.length + 1) := by omega
    rw [this]

theorem cb_open_run (fail_max reset_timeout : Nat) (l : List Nat) :
    ∀ (s : ProviderCircuit) (k e : Nat),
      l ≠ [] → s.failures = some (k, e) → 1 ≤ k → (∀ t ∈ l, t < e) →
      k + l.length = fail_max →
      runFailures fail_max reset_timeout s l =
        { state := some ("open", lastTime l + reset_timeout),
          failures := some (fail_max, e) } := by
  induction l with
  | nil => intro s k e hne; cases hne rfl
  | cons t ts ih =>
    intro s k e hne hf hk hlt hmax
    cases ts with
    | nil =>
      show record_failure fail_max reset_timeout t s = _
      unfold record_failure increment_circuit_failures
      rw [hf]
      simp only [if_pos (hlt t (List.mem_cons_self t []))]
      have hk1 : ¬ k + 1 = 1 := by
        simp only [List.length_cons, List.length_nil] at hmax
        omega
      rw [if_neg hk1]
      have hge : k + 1 ≥ fail_max := by
        simp only [List.length_cons, List.length_nil] at hmax
        omega
      simp only [ge_iff_le, hge, if_true, if_pos hge]
      unfold set_circuit_state
      simp only [List.length_cons, List.length_nil] at hmax
      have hfm : k + 1 = fail_max := by omega
      rw [hfm]
      rfl
    | cons t2 ts2 =>
      have hstep : record_failure fail_max reset_timeout t s =
          { s with failures := some (k + 1, e) } := by
        apply cb_step_live fail_max reset_timeout t s k e hf hk
          (hlt t (List.mem_cons_self t (t2 :: ts2)))
        simp only [List.length_cons] at hmax
        omega
      show runFailures fail_max reset_timeout
        (record_failure fail_max reset_timeout t s) (t2 :: ts2) = _
      rw [hstep]
      rw [ih { s with failures := some (k + 1, e) } (k + 1) e (by simp) rfl
        (by omega) (fun t3 ht3 => hlt t3 (List.mem_cons_of_mem t ht3))
        (by simp only [List.length_cons] at hmax ⊢; omega)]
      rfl

/-! ## Claim about the circuit breaker -/

/-- C1: from a clean failure counter, a run of exactly fail-max recorded
failures (each incrementing the separately persisted counter, all inside
its 120-second expiry window) leaves the circuit state open with expiry
reset-timeout past the last failure; is-circuit-open then reads true at
every instant before that expiry and false afterwards; any strictly
shorter run of failures leaves the circuit state untouched while counting
in the failure key; and a recorded success clears the failure counter. -/
theorem C1_circuit_breaker (fail_max reset_timeout : Nat) (hfm : 1 ≤ fail_max) :
    (∀ (t0 : Nat) (rest : List Nat) (s0 : ProviderCircuit),
      s0.failures = none → 1 + rest.length = fail_max →
      (∀ t ∈ rest, t < t0 + 120) →
      runFailures fail_max reset_timeout s0 (t0 :: rest) =
        { state := some ("open", lastTime (t0 :: rest) + reset_timeout),
          failures := some (fail_max, t0 + 120) }
      ∧ (∀ t, t < lastTime (t0 :: rest) + reset_timeout →
          is_circuit_open t (runFailures fail_max reset_timeout s0 (t0 :: rest)) = true)
      ∧ (∀ t, lastTime (t0 :: rest) + reset_timeout ≤ t →
          is_circuit_open t (runFailures fail_max reset_timeout s0 (t0 :: rest)) = false))
    ∧ (∀ (t0 : Nat) (rest : List Nat) (s0 : ProviderCircuit),
      s0.failures = none → rest.length + 2 ≤ fail_max →
      (∀ t ∈ rest, t < t0 + 120) →
      (runFailures fail_max reset_timeout s0 (t0 :: rest)).state = s0.state
      ∧ (runFailures fail_max reset_timeout s0 (t0 :: rest)).failures =
          some (1 + rest.length, t0 + 120))
    ∧ (∀ (t : Nat) (s : ProviderCircuit), (record_success t s).failures = none) := by
  have hfirst : ∀ (t0 : Nat) (s0 : ProviderCircuit), s0.failures = none →
      increment_circuit_failures t0 s0 =
        (1, { s0 with failures := some (1, t0 + 120) }) := by
    intro t0 s0 h0
    unfold increment_circuit_failures
    rw [h0]
  refine ⟨?_, ?_, ?_⟩
  · intro t0 rest s0 h0 hlen hwin
    have hrun : runFailures fail_max reset_timeout s0 (t0 :: rest) =
        { state := some ("open", lastTime (t0 :: rest) + reset_timeout),
          failures := some (fail_max, t0 + 120) } := by
      cases rest with
      | nil =>
        show record_failure fail_max reset_timeout t0 s0 = _
        unfold record_failure
        rw [hfirst t0 s0 h0]
        have hge : 1 ≥ fail_max := by
          simp only [List.length_nil] at hlen
          omega
        simp only [ge_iff_le, hge, if_true, if_pos hge]
        unfold set_circuit_state
        have h1 : fail_max = 1 := by
          simp only [List.length_nil] at hlen
          omega
        rw [h1]
        rfl
      | cons t1 ts1 =>
        have hstep : record_failure fail_max reset_timeout t0 s0 =
            { s0 with failures := some (1, t0 + 120) } := by
          unfold record_failure
          rw [hfirst t0 s0 h0]
          have hge : ¬ 1 ≥ fail_max := by
            simp only [List.length_cons] at hlen
            omega
          simp only [ge_iff_le] at hge
          rw [if_neg hge]
        show runFailures fail_max reset_timeout
          (record_failure fail_max reset_timeout t0 s0) (t1 :: ts1) = _
        rw [hstep]
        rw [cb_open_run fail_max reset_timeout (t1 :: ts1)
          { s0 with failures := some (1, t0 + 120) } 1 (t0 + 120) (by simp) rfl
          (le_refl 1) hwin (by simp only [List.length_cons] at hlen ⊢; omega)]
        have hlast : lastTime (t0 :: t1 :: ts1) = lastTime (t1 :: ts1) := rfl
        rw [hlast]
    refine ⟨hrun, ?_, ?_⟩
    · intro t ht
      rw [hrun]
      unfold is_circuit_open get_circuit_state
      simp only [if_pos ht]
      decide
    · intro t ht
      rw [hrun]
      unfold is_circuit_open get_circuit_state
      have hnl : ¬ t < lastTime (t0 :: rest) + reset_timeout := by omega
      simp only [if_neg hnl]
      decide
  · intro t0 rest s0 h0 hlen hwin
    have hstep : record_failure fail_max reset_timeout t0 s0 =
        { s0 with failures := some (1, t0 + 120) } := by
      unfold record_failure
      rw [hfirst t0 s0 h0]
      have hge : ¬ 1 ≥ fail_max := by omega
      simp only [ge_iff_le] at hge
      rw [if_neg hge]
    have hrun : runFailures fail_max reset_timeout s0 (t0 :: rest) =
        { s0 with failures := some (1 + rest.length, t0 + 120) } := by
      show runFailures fail_max reset_timeout
        (record_failure fail_max reset_timeout t0 s0) rest = _
      rw [hstep]
      rw [cb_run fail_max reset_timeout rest
        { s0 with failures := some (1, t0 + 120) } 1 (t0 + 120) rfl (le_refl 1)
        hwin (by omega)]
    rw [hrun]
    exact ⟨rfl, rfl⟩
  · intro t s
    unfold record_success reset_circuit_failures set_circuit_state
    dsimp only
    split <;> rfl

theorem C1_circuit_breaker_witness :
    runFailures 5 30 ⟨none, none⟩ [100, 101, 102, 103, 104] =
      ⟨some ("open", 134), some (5, 220)⟩
    ∧ is_circuit_open 133 (runFailures 5 30 ⟨none, none⟩ [100, 101, 102, 103, 104]) = true
    ∧ is_circuit_open 134 (runFailures 5 30 ⟨none, none⟩ [100, 101, 102, 103, 104]) = false
    ∧ (runFailures 5 30 ⟨none, none⟩ [200, 201]).state = none
    ∧ (runFailures 5 30 ⟨none, none⟩ [200, 201]).failures = some (2, 320)
    ∧ (record_success 7 ⟨none, some (3, 300)⟩).failures = none := by
  have h := C1_circuit_breaker 5 30 (by decide)
  have h1 := h.1 100 [101, 102, 103, 104] ⟨none, none⟩ rfl (by decide) (by decide)
  have h2 := h.2.1 200 [201] ⟨none, none⟩ rfl (by decide) (by decide)
  refine ⟨?_, ?_, ?_, ?_, ?_, h.2.2 7 ⟨none, some (3, 300)⟩⟩
  · simpa using h1.1
  · simpa using h1.2.1 133 (by decide)
  · simpa using h1.2.2 134 (by decide)
  · simpa using h2.1
  · simpa using h2.2

/-! ## Claims about persona resolution -/

/-- C3 counterexample: with neither a user override nor a server record,
the effective preset is twomoon, not the claimed preset default. -/
theorem C3_counterexample :
    (get_effective_persona (fun _ => none) (fun _ => none) "u1" "s1").preset = "twomoon"
    ∧ (get_effective_persona (fun _ => none) (fun _ => none) "u1" "s1").quirk_intensity
        = "heavy"
    ∧ ("twomoon" : String) ≠ "default" := by
  refine ⟨rfl, rfl, by decide⟩

/-- C3 amended: a user override with a truthy (non-null, nonempty) preset
always wins, pulling quirk intensity from the user row or else the server
profile; with no such override the server profile applies; with neither a
user row nor a server row the effective persona is source server, preset
twomoon, quirk intensity heavy. -/
theorem C3_effective_persona (udb : String → Option UserPersonaRow)
    (sdb : String → Option ServerPersonaRow) (uid sid : String) :
    (∀ (up : UserPersonaRow) (p : String), udb uid = some up → up.preset = some p →
      p ≠ "" →
      (get_effective_persona udb sdb uid sid).preset = p
      ∧ (get_effective_persona udb sdb uid sid).quirk_intensity =
          pyOrStr up.quirk_intensity (get_server_persona sdb sid).quirk_intensity)
    ∧ ((∀ up : UserPersonaRow, udb uid = some up → pyTruthyStr up.preset = false) →
      (get_effective_persona udb sdb uid sid).preset = (get_server_persona sdb sid).preset
      ∧ (get_effective_persona udb sdb uid sid).quirk_intensity =
          (get_server_persona sdb sid).quirk_intensity)
    ∧ (udb uid = none → sdb sid = none →
      get_effective_persona udb sdb uid sid = ⟨"server", "twomoon", "heavy", none⟩) := by
  refine ⟨?_, ?_, ?_⟩
  · intro up p hup hp hpne
    have htr : pyTruthyStr (some p) = true := decide_eq_true hpne
    unfold get_effective_persona get_user_persona
    rw [hup]
    simp [hp, htr]
  · intro hno
    unfold get_effective_persona get_user_persona
    cases hup : udb uid with
    | none => simp
    | some up =>
      have := hno up hup
      simp [this]
  · intro hu hs
    unfold get_effective_persona get_user_persona get_server_persona
    rw [hu, hs]

theorem C3_effective_persona_witness :
    ((fun u => if u = "u1" then some (⟨some "chaos", none, none⟩ : UserPersonaRow)
        else none) "u1" = some (⟨some "chaos", none, none⟩ : UserPersonaRow))
    ∧ (get_effective_persona
        (fun u => if u = "u1" then some ⟨some "chaos", none, none⟩ else none)
        (fun s => if s = "s1" then some ⟨"mentor", "light"⟩ else none)
        "u1" "s1").preset = "chaos"
    ∧ (get_effective_persona
        (fun u => if u = "u1" then some ⟨some "chaos", none, none⟩ else none)
        (fun s => if s = "s1" then some ⟨"mentor", "light"⟩ else none)
        "u1" "s1").quirk_intensity =
        pyOrStr none (get_server_persona
          (fun s => if s = "s1" then some ⟨"mentor", "light"⟩ else none) "s1").quirk_intensity
    ∧ get_effective_persona (fun _ => none) (fun _ => none) "u2" "s2" =
        ⟨"server", "twomoon", "heavy", none⟩ := by
  refine ⟨by decide, ?_, ?_, ?_⟩
  · exact ((C3_effective_persona
      (fun u => if u = "u1" then some ⟨some "chaos", none, none⟩ else none)
      (fun s => if s = "s1" then some ⟨"mentor", "light"⟩ else none)
      "u1" "s1").1 ⟨some "chaos", none, none⟩ "chaos" (by decide) rfl (by decide)).1
  · exact ((C3_effective_persona
      (fun u => if u = "u1" then some ⟨some "chaos", none, none⟩ else none)
      (fun s => if s = "s1" then some ⟨"mentor", "light"⟩ else none)
      "u1" "s1").1 ⟨some "chaos", none, none⟩ "chaos" (by decide) rfl (by decide)).2
  · exact (C3_effective_persona (fun _ => none) (fun _ => none) "u2" "s2").2.2 rfl rfl

/-! ## Claims about the gateway -/

/-- C6: when each provider is skipped (open circuit) or fails, the
structured chat call returns the safe do-not-respond default instead of
raising, and when both circuits are open no outbound request is issued at
all and the circuit state is untouched. -/
theorem C6_provider_exhaustion (fail_max reset_timeout t : Nat)
    (st : GatewayState) (groqRes orRes : Option ChatResponse) :
    ((is_circuit_open t st.groq = true ∨ groqRes = none) →
      (is_circuit_open t st.openrouter = true ∨ orRes = none) →
      (generate_chat fail_max reset_timeout t st groqRes orRes).1.should_respond = false
      ∧ (generate_chat fail_max reset_timeout t st groqRes orRes).1.response_text = "")
    ∧ (is_circuit_open t st.groq = true → is_circuit_open t st.openrouter = true →
      generate_chat fail_max reset_timeout t st groqRes orRes = (chatDefault, st, [])) := by
  constructor
  · intro hg ho
    unfold generate_chat try_openrouter_stage
    rcases hg with hg | hg
    · rw [hg]
      simp only [Bool.not_true, Bool.false_eq_true, if_false]
      rcases ho with ho | ho
      · rw [ho]
        simp [chatDefault]
      · subst ho
        split <;> simp [chatDefault]
    · subst hg
      split
      · simp only []
        rcases ho with ho | ho
        · rw [show ({ st with groq := record_failure fail_max reset_timeout t st.groq }
            : GatewayState).openrouter = st.openrouter from rfl, ho]
          simp [chatDefault]
        · subst ho
          split <;> simp [chatDefault]
      · rcases ho with ho | ho
        · rw [ho]
          simp [chatDefault]
        · subst ho
          split <;> simp [chatDefault]
  · intro hg ho
    unfold generate_chat try_openrouter_stage
    rw [hg, ho]
    simp

theorem C6_provider_exhaustion_witness :
    is_circuit_open 10 (⟨⟨some ("open", 100), none⟩, ⟨some ("open", 100), none⟩⟩
        : GatewayState).groq = true
    ∧ is_circuit_open 10 (⟨⟨some ("open", 100), none⟩, ⟨some ("open", 100), none⟩⟩
        : GatewayState).openrouter = true
    ∧ (generate_chat 5 30 10 ⟨⟨some ("open", 100), none⟩, ⟨some ("open", 100), none⟩⟩
        (some ⟨true, "hi", "neutral"⟩) (some ⟨true, "yo", "neutral"⟩)).1.should_respond
        = false
    ∧ generate_chat 5 30 10 ⟨⟨some ("open", 100), none⟩, ⟨some ("open", 100), none⟩⟩
        (some ⟨true, "hi", "neutral"⟩) (some ⟨true, "yo", "neutral"⟩) =
        (chatDefault, ⟨⟨some ("open", 100), none⟩, ⟨some ("open", 100), none⟩⟩, []) :=
  ⟨by decide, by decide,
    ((C6_provider_exhaustion 5 30 10 ⟨⟨some ("open", 100), none⟩, ⟨some ("open", 100), none⟩⟩
      (some ⟨true, "hi", "neutral"⟩) (some ⟨true, "yo", "neutral"⟩)).1
      (Or.inl (by decide)) (Or.inl (by decide))).1,
    (C6_provider_exhaustion 5 30 10 ⟨⟨some ("open", 100), none⟩, ⟨some ("open", 100), none⟩⟩
      (some ⟨true, "hi", "neutral"⟩) (some ⟨true, "yo", "neutral"⟩)).2
      (by decide) (by decide)⟩

/-! ## Claims about semantic retrieval -/

/-- C10: every item returned by semantic_search stems from a candidate row
whose computed similarity is non-null and strictly greater than 0.3, and
when no candidate passes the threshold the result is empty regardless of
the requested limit. -/
theorem C10_similarity_threshold (rows : List LogRow) (lim : Nat) :
    (∀ res ∈ semantic_search rows lim,
      simThreshold < res.similarity
      ∧ ∃ row ∈ rows, row.similarity = some res.similarity ∧ toSemResult row = res)
    ∧ ((∀ row ∈ rows, rowPasses row = false) → semantic_search rows lim = []) := by
  constructor
  · intro res hres
    unfold semantic_search at hres
    obtain ⟨row, hrowmem, hrow⟩ := List.mem_map.mp hres
    have hfil := List.mem_filter.mp hrowmem
    have hrows : row ∈ rows := by
      have htake : row ∈ pySort simDescNullsLast rows :=
        List.take_subset _ _ hfil.1
      exact (mem_pySort simDescNullsLast rows row).mp htake
    have hpass := hfil.2
    unfold rowPasses at hpass
    cases hsim : row.similarity with
    | none => rw [hsim] at hpass; cases hpass
    | some s =>
      rw [hsim] at hpass
      have hs3 : simThreshold < s := by
        have := (Bool.and_eq_true _ _).mp hpass
        exact of_decide_eq_true this.2
      have hressim : res.similarity = s := by
        rw [← hrow]
        unfold toSemResult
        rw [hsim]
        rfl
      refine ⟨by rw [hressim]; exact hs3, row, hrows, ?_, hrow⟩
      rw [hsim, hressim]
  · intro hall
    have hfil : ((pySort simDescNullsLast rows).take lim).filter rowPasses = [] := by
      apply List.filter_eq_nil_iff.mpr
      intro row hrow
      have hrows : row ∈ rows :=
        (mem_pySort simDescNullsLast rows row).mp (List.take_subset _ _ hrow)
      simp [hall row hrows]
    show (((pySort simDescNullsLast rows).take lim).filter rowPasses).map toSemResult = []
    rw [hfil]
    rfl

theorem C10_similarity_threshold_witness :
    (toSemResult ⟨"m1", "1", "ha", false, 200, some 1⟩ ∈
      semantic_search [⟨"m1", "1", "ha", false, 200, some 1⟩] 3)
    ∧ (simThreshold <
        (toSemResult ⟨"m1", "1", "ha", false, 200, some 1⟩).similarity
      ∧ ∃ row ∈ [⟨"m1", "1", "ha", false, 200, some 1⟩],
          LogRow.similarity row = some (toSemResult
            ⟨"m1", "1", "ha", false, 200, some 1⟩).similarity
          ∧ toSemResult row = toSemResult ⟨"m1", "1", "ha", false, 200, some 1⟩)
    ∧ ((∀ row ∈ [⟨"m2", "1", "lo", false, 100,
          some (⟨1, 5, by decide, by decide⟩ : ℚ)⟩], rowPasses row = false)
        ∧ semantic_search [⟨"m2", "1", "lo", false, 100,
            some (⟨1, 5, by decide, by decide⟩ : ℚ)⟩] 3 = []) :=
  ⟨by decide,
    (C10_similarity_threshold [⟨"m1", "1", "ha", false, 200, some 1⟩] 3).1
      (toSemResult ⟨"m1", "1", "ha", false, 200, some 1⟩) (by decide),
    by decide,
    (C10_similarity_threshold [⟨"m2", "1", "lo", false, 100,
        some (⟨1, 5, by decide, by decide⟩ : ℚ)⟩] 3).2
      (by decide)⟩

/-- C2: the never-trim sections CURRENT and, when a reply chain exists,
REPLY CONTEXT appear in full in the rendered output for every tokenizer,
context and token budget (even a zero budget); and a trimmable section
(priority below 5) whose block would push the running total past the
budget is truncated to the remaining token allowance when that allowance
exceeds the floor of 50 tokens, and dropped entirely otherwise. -/
theorem C2_token_budget_rendering (tok : Tokenizer) (ctx : AssembledContext)
    (authorDisplay msgContent : String) (token_budget : Nat) :
    occursIn ("[CURRENT]" ++ "\n" ++ (authorDisplay ++ ": " ++ msgContent))
      (format tok ctx authorDisplay msgContent token_budget)
    ∧ (ctx.reply_chain ≠ [] →
        occursIn ("[REPLY CONTEXT]" ++ "\n" ++ fmtChain ctx.reply_chain)
          (format tok ctx authorDisplay msgContent token_budget))
    ∧ (∀ (parts : List String) (used : Nat) (label content : String) (pri : Nat),
        pri < 5 →
        used + count_tokens tok (label ++ "\n" ++ content) > token_budget →
        budgetStep tok token_budget (parts, used) (label, content, pri) =
          if token_budget - used > 50 then
            (parts ++ [trim_to_tokens tok (label ++ "\n" ++ content) (token_budget - used)],
              used + count_tokens tok (trim_to_tokens tok (label ++ "\n" ++ content)
                (token_budget - used)))
          else (parts, used)) := by
  refine ⟨?_, ?_, ?_⟩
  · have hmem : ("[CURRENT]", authorDisplay ++ ": " ++ msgContent, 5) ∈
        buildSections ctx authorDisplay msgContent := by
      unfold buildSections
      simp
    have hsorted : ("[CURRENT]", authorDisplay ++ ": " ++ msgContent, 5) ∈
        pySort (fun a b => b.2.2 ≤ a.2.2) (buildSections ctx authorDisplay msgContent) :=
      (mem_pySort _ _ _).mpr hmem
    have hfold : ("[CURRENT]" ++ "\n" ++ (authorDisplay ++ ": " ++ msgContent)) ∈
        formatParts tok ctx authorDisplay msgContent token_budget := by
      show _ ∈ ((pySort (fun a b => b.2.2 ≤ a.2.2)
        (buildSections ctx authorDisplay msgContent)).foldl
          (budgetStep tok token_budget) ([], 0)).1
      exact budgetFold_mem_of_never_trim tok token_budget _ ([], 0) _ _ 5 hsorted
        (by omega)
    exact occursIn_pyJoin "\n\n" _ _ hfold
  · intro hrc
    have hmem : ("[REPLY CONTEXT]", fmtChain ctx.reply_chain, 5) ∈
        buildSections ctx authorDisplay msgContent := by
      unfold buildSections
      simp [hrc]
    have hsorted : ("[REPLY CONTEXT]", fmtChain ctx.reply_chain, 5) ∈
        pySort (fun a b => b.2.2 ≤ a.2.2) (buildSections ctx authorDisplay msgContent) :=
      (mem_pySort _ _ _).mpr hmem
    have hfold : ("[REPLY CONTEXT]" ++ "\n" ++ fmtChain ctx.reply_chain) ∈
        formatParts tok ctx authorDisplay msgContent token_budget := by
      show _ ∈ ((pySort (fun a b => b.2.2 ≤ a.2.2)
        (buildSections ctx authorDisplay msgContent)).foldl
          (budgetStep tok token_budget) ([], 0)).1
      exact budgetFold_mem_of_never_trim tok token_budget _ ([], 0) _ _ 5 hsorted
        (by omega)
    exact occursIn_pyJoin "\n\n" _ _ hfold
  · intro parts used label content pri hpri hover
    unfold budgetStep
    dsimp only
    rw [if_pos (⟨hover, hpri⟩ : _ ∧ _)]

theorem C2_token_budget_rendering_witness :
    (([⟨"1", "bob", "2", "parent", false, 1⟩] : List MessageFragment) ≠ [])
    ∧ occursIn ("[CURRENT]" ++ "\n" ++ ("alice" ++ ": " ++ "question"))
        (format charTok ⟨[⟨"1", "bob", "2", "parent", false, 1⟩], [], [], []⟩
          "alice" "question" 0)
    ∧ occursIn ("[REPLY CONTEXT]" ++ "\n" ++ fmtChain [⟨"1", "bob", "2", "parent", false, 1⟩])
        (format charTok ⟨[⟨"1", "bob", "2", "parent", false, 1⟩], [], [], []⟩
          "alice" "question" 0)
    ∧ (1 < 5 ∧ 0 + count_tokens charTok ("[RECENT CHAT]" ++ "\n" ++ "hello") > 0)
    ∧ budgetStep charTok 0 ([], 0) ("[RECENT CHAT]", "hello", 1) = ([], 0) := by
  refine ⟨by decide, ?_, ?_, ⟨by decide, by decide⟩, ?_⟩
  · exact (C2_token_budget_rendering charTok
      ⟨[⟨"1", "bob", "2", "parent", false, 1⟩], [], [], []⟩ "alice" "question" 0).1
  · exact (C2_token_budget_rendering charTok
      ⟨[⟨"1", "bob", "2", "parent", false, 1⟩], [], [], []⟩ "alice" "question" 0).2.1
      (by decide)
  · have h := (C2_token_budget_rendering charTok
      ⟨[⟨"1", "bob", "2", "parent", false, 1⟩], [], [], []⟩ "alice" "question" 0).2.2
      [] 0 "[RECENT CHAT]" "hello" 1 (by decide) (by decide)
    rw [if_neg (by decide)] at h
    exact h

/-- C4: the dedup key computed in build is the string None for every
semantic result, because semantic_search selects neither message_id nor
id; a recalled item originating from a conversation-log row whose
message id is already present in channel history therefore survives into
semantic_results, contradicting the dedup claim. -/
theorem C4_dedup_dead_code :
    resId (toSemResult ⟨"100", "1", "hello world", false, 50, some 1⟩) = "None"
    ∧ semantic_search [⟨"100", "1", "hello world", false, 50, some 1⟩] 3
        = [toSemResult ⟨"100", "1", "hello world", false, 50, some 1⟩]
    ∧ ("100" ∈ ([⟨"100", "alice", "1", "hello world", false, 50⟩]
        : List MessageFragment).map (fun m => m.msg_id))
    ∧ build_semantic [] [⟨"100", "alice", "1", "hello world", false, 50⟩] "999"
        (semantic_search [⟨"100", "1", "hello world", false, 50, some 1⟩] 3)
        = [toSemResult ⟨"100", "1", "hello world", false, 50, some 1⟩] := by
  refine ⟨rfl, by decide, by decide, by decide⟩

/-- C5: the sort key in build reads the absent timestamp dict key, so the
deduplicated results keep their similarity-descending order; with two
results timestamped 100 and 200, the output created-at sequence is 200
then 100, not chronological ascending. -/
theorem C5_sort_dead_code :
    (build_semantic [] [] "999"
      (semantic_search
        [⟨"201", "2", "aaa", false, 100, some 1⟩,
         ⟨"202", "3", "bbb", false, 200, some 2⟩] 3)).map
          (fun r => r.created_at) = [(200 : ℚ), 100]
    ∧ ¬ ((200 : ℚ) ≤ 100) := by
  refine ⟨by decide, by decide⟩

end Gumiho
